import Mathlib

/-!
Verification of the keystore model and resource lifecycle of the
terraform-provider-jks repository.

The Go code under `internal/provider/keystore_model.go` shells out to the
external `keytool` binary and touches the filesystem.  We embed it shallowly:
every external interaction (subprocess run, file write/read/remove) is recorded
in an effect trace, its outcome is determined by an explicit environment
`Env` (success payloads and injected failures), and the filesystem is an
explicit map from filenames to byte lists threaded through the computation.
Go byte slices are `List Nat`, `(string, error)` returns are a `String`
paired with an `Option String`.
-/

namespace JKS

/-! ### Go base64 (encoding/base64 StdEncoding) -/

/-- The standard base64 alphabet used by Go's `base64.StdEncoding`. -/
def b64Alphabet : List Char :=
  "ABCDEFGHIJKLMNOPQRSTUVWXYZabcdefghijklmnopqrstuvwxyz0123456789+/".toList

/-- Index of a character in the standard alphabet, `none` for characters
outside it (including the padding character). -/
def b64Index (c : Char) : Option Nat :=
  b64Alphabet.findIdx? (fun d => d == c)

/-- Character for a 6-bit value. -/
def b64Char (n : Nat) : Char := b64Alphabet.getD n 'A'

/-- Encoding of a byte list in 3-byte groups, with `=` padding, exactly as
Go's `base64.StdEncoding.EncodeToString` does. -/
def encodeChunks : List Nat → List Char
  | [] => []
  | [b1] => [b64Char (b1 / 4), b64Char (b1 % 4 * 16), '=', '=']
  | [b1, b2] => [b64Char (b1 / 4), b64Char (b1 % 4 * 16 + b2 / 16),
      b64Char (b2 % 16 * 4), '=']
  | b1 :: b2 :: b3 :: rest =>
      b64Char (b1 / 4) :: b64Char (b1 % 4 * 16 + b2 / 16) ::
      b64Char (b2 % 16 * 4 + b3 / 64) :: b64Char (b3 % 64) :: encodeChunks rest

/-- Go's `base64.StdEncoding.EncodeToString`. -/
def GoBase64Encode (bs : List Nat) : String := String.mk (encodeChunks bs)

/-- Decoding in 4-character quanta with `=` padding allowed only at the end of
the final quantum, as Go's `base64.StdEncoding` decoder does (non-strict:
residual bits of the final partial byte are ignored).  `none` is a corrupt
input. -/
def decodeChunks : List Char → Option (List Nat)
  | [] => some []
  | c1 :: c2 :: c3 :: c4 :: rest =>
      match b64Index c1, b64Index c2 with
      | some a, some b =>
        if c3 = '=' then
          if c4 = '=' && rest.isEmpty then some [a * 4 + b / 16] else none
        else
          match b64Index c3 with
          | some d3 =>
            if c4 = '=' then
              if rest.isEmpty then some [a * 4 + b / 16, b % 16 * 16 + d3 / 4]
              else none
            else
              match b64Index c4 with
              | some d4 =>
                match decodeChunks rest with
                | some tail =>
                    some ((a * 4 + b / 16) :: (b % 16 * 16 + d3 / 4) ::
                      (d3 % 4 * 64 + d4) :: tail)
                | none => none
              | none => none
          | none => none
      | _, _ => none
  | _ => none

/-- The message carried by Go's `base64.CorruptInputError` (the Go error also
reports the offending byte position; we keep the fixed descriptive text). -/
def decodeErr : String := "illegal base64 data"

/-- Go's `base64.StdEncoding.DecodeString`: newline characters are ignored,
everything else must decode in 4-character quanta. -/
def GoBase64Decode (s : String) : Except String (List Nat) :=
  match decodeChunks (s.toList.filter (fun c => !(c == '\r') && !(c == '\n'))) with
  | some bs => Except.ok bs
  | none => Except.error decodeErr

/-! ### External effects, environment and filesystem -/

/-- One external interaction performed by the keystore model code. -/
inductive Effect where
  | runCmd (prog : String) (args : List String)
  | writeFile (name : String) (contents : List Nat)
  | readFile (name : String)
  | removeFile (name : String)
deriving DecidableEq, Repr

/-- The filesystem: filenames to byte contents. -/
def FS : Type := String → Option (List Nat)

/-- The empty filesystem. -/
def fsEmpty : FS := fun _ => none

/-- Write (create or overwrite) a file. -/
def fsWrite (fs : FS) (n : String) (bs : List Nat) : FS :=
  fun m => if m = n then some bs else fs m

/-- Remove a file. -/
def fsRemove (fs : FS) (n : String) : FS :=
  fun m => if m = n then none else fs m

/-- Outcomes of the external calls made by one model operation: what each
`keytool` invocation produces (`none` is a missing binary or non-zero exit),
and injected failures for the filesystem calls (`os.WriteFile`, `os.ReadFile`,
`os.Remove` can fail even on an existing file, e.g. on permissions). -/
structure Env where
  keytoolGen : Option (List Nat)
  keytoolImport : Option (List Nat)
  writeFail : Bool
  readFail1 : Bool
  readFail2 : Bool
  removeFail1 : Bool
  removeFail2 : Bool
deriving DecidableEq, Repr

/-- The full result of a model operation: the returned `(string, error)` pair,
the final filesystem, and the trace of attempted external interactions. -/
structure Outcome where
  value : String
  error : Option String
  fs : FS
  trace : List Effect

/-! ### The keystore model (internal/provider/keystore_model.go) -/

/-- `KeystoreModel` from keystore_model.go. -/
structure KeystoreModel where
  Password : String
  Base64Text : String
deriving DecidableEq, Repr

/-- The constant `FILENAME` from keystore_model.go. -/
def FILENAME : String := "79e00021-58b2-4652-b498-59134c0ed6e7.pkcs12"

/-- The constant `FILENAME2` from keystore_model.go. -/
def FILENAME2 : String := "79e00021-58b2-4652-b498-59134c0ed6e72.pkcs12"

/-- The literal `-dname` argument passed by `CreateKeystoreBase64`. -/
def createDname : String :=
  "CN=Unknown, OU=Unknown, O=Unknown, L=Unknown, S=Unknown, C=Unknown"

/-- Error message of the `genkeypair` command failure branch. -/
def createCmdErr : String :=
  "error after executing command to produce keystore file. Is the keytool installed on the machine?"

/-- Error message of the read-after-create failure branch. -/
def createReadErr : String :=
  "error reading keystore file after producing keystore file"

/-- Error message of the remove-after-read failure branch of create. -/
def createRemoveErr : String :=
  "error removing keystore file after reading keystore file"

/-- Error message for a failing `os.WriteFile` in the update path (Go returns
the raw OS error; we keep a fixed descriptive text). -/
def writeErr : String := "write error"

/-- Error message of the `importkeystore` command failure branch. -/
def updateCmdErr : String := "error changing password"

/-- Error message when removing the first temp file fails in the update path. -/
def updateRemoveOldErr : String :=
  "error removing old keystore file after changing password"

/-- Error message when reading the second temp file fails in the update path. -/
def updateReadErr : String :=
  "error reading new keystore file after changing password"

/-- Error message when removing the second temp file fails in the update path. -/
def updateRemoveNewErr : String :=
  "error removing keystore file after reading keystore file."

/-- Argument list of the `keytool -genkeypair` command built by
`CreateKeystoreBase64`, verbatim from the source. -/
def createArgs (password : String) : List String :=
  ["-v", "-genkeypair", "-alias", "keystore", "-keypass", password,
   "-keystore", FILENAME, "-storepass", password, "-validity", "10000",
   "-keyalg", "RSA", "-keysize", "2048", "-dname", createDname]

/-- Argument list of the `keytool -importkeystore` command built by
`UpdateKeystoreBase64`, verbatim from the source. -/
def updateArgs (oldPassword newPassword : String) : List String :=
  ["-importkeystore", "-srckeystore", FILENAME, "-srcstoretype", "PKCS12",
   "-srcstorepass", oldPassword, "-destkeystore", FILENAME2,
   "-deststoretype", "PKCS12", "-deststorepass", newPassword,
   "-destkeypass", newPassword]

/-- `KeystoreModel.CreateKeystoreBase64`: run `keytool -genkeypair` (which, on
success, writes the keystore bytes supplied by the environment to `FILENAME`),
read the file, remove it, and return its contents base64-encoded.  Each early
`return "", err` of the Go code is an outcome with value `""` and a `some`
error. -/
def KeystoreModel.CreateKeystoreBase64 (m : KeystoreModel) (env : Env)
    (fs0 : FS) : Outcome :=
  let tr1 := [Effect.runCmd "keytool" (createArgs m.Password)]
  match env.keytoolGen with
  | none => ⟨"", some createCmdErr, fs0, tr1⟩
  | some gen =>
    let fs1 := fsWrite fs0 FILENAME gen
    let tr2 := tr1 ++ [Effect.readFile FILENAME]
    match (if env.readFail1 then none else fs1 FILENAME) with
    | none => ⟨"", some createReadErr, fs1, tr2⟩
    | some bytes =>
      let tr3 := tr2 ++ [Effect.removeFile FILENAME]
      if env.removeFail1 || (fs1 FILENAME).isNone then
        ⟨"", some createRemoveErr, fs1, tr3⟩
      else
        ⟨GoBase64Encode bytes, none, fsRemove fs1 FILENAME, tr3⟩

/-- `KeystoreModel.UpdateKeystoreBase64`: decode the stored blob, write it to
`FILENAME`, run `keytool -importkeystore` (which, on success, writes the
re-encrypted bytes supplied by the environment to `FILENAME2`), remove
`FILENAME`, read `FILENAME2`, remove it, and return its contents
base64-encoded.  Each early `return "", err` of the Go code is an outcome with
value `""` and a `some` error. -/
def KeystoreModel.UpdateKeystoreBase64 (oldModel : KeystoreModel)
    (newPassword : String) (env : Env) (fs0 : FS) : Outcome :=
  match GoBase64Decode oldModel.Base64Text with
  | Except.error e => ⟨"", some e, fs0, []⟩
  | Except.ok decoded =>
    let tr1 := [Effect.writeFile FILENAME decoded]
    if env.writeFail then ⟨"", some writeErr, fs0, tr1⟩
    else
      let fs1 := fsWrite fs0 FILENAME decoded
      let tr2 := tr1 ++ [Effect.runCmd "keytool" (updateArgs oldModel.Password newPassword)]
      match env.keytoolImport with
      | none => ⟨"", some updateCmdErr, fs1, tr2⟩
      | some produced =>
        let fs2 := fsWrite fs1 FILENAME2 produced
        let tr3 := tr2 ++ [Effect.removeFile FILENAME]
        if env.removeFail1 || (fs2 FILENAME).isNone then
          ⟨"", some updateRemoveOldErr, fs2, tr3⟩
        else
          let fs3 := fsRemove fs2 FILENAME
          let tr4 := tr3 ++ [Effect.readFile FILENAME2]
          match (if env.readFail2 then none else fs3 FILENAME2) with
          | none => ⟨"", some updateReadErr, fs3, tr4⟩
          | some bytes =>
            let tr5 := tr4 ++ [Effect.removeFile FILENAME2]
            if env.removeFail2 || (fs3 FILENAME2).isNone then
              ⟨"", some updateRemoveNewErr, fs3, tr5⟩
            else
              ⟨GoBase64Encode bytes, none, fsRemove fs3 FILENAME2, tr5⟩

/-! ### The resource lifecycle (base64_text variant of the resource file) -/

/-- A `types.String` of the terraform-plugin-framework: null, unknown, or a
known value. -/
inductive TFString where
  | null
  | unknown
  | value (s : String)
deriving DecidableEq, Repr

/-- `types.String.ValueString()`: the known value, or `""` for null/unknown. -/
def TFString.valueString : TFString → String
  | TFString.value s => s
  | _ => ""

/-- `KeystoreResourceModel` of the resource file: id, password and the
computed base64 blob. -/
structure KeystoreResourceModel where
  Id : TFString
  Password : TFString
  Base64Text : TFString
deriving DecidableEq, Repr

/-- `KeystoreResourceModel.ToKeystoreModel`. -/
def KeystoreResourceModel.ToKeystoreModel (r : KeystoreResourceModel) :
    KeystoreModel :=
  ⟨r.Password.valueString, r.Base64Text.valueString⟩

/-- The framework's view of one lifecycle call: the new state written on
success (`Except.ok`) or the diagnostic error (`Except.error`, in which case
the framework keeps the prior state), the final filesystem, and the trace of
external interactions. -/
structure ResourceOutcome where
  result : Except String KeystoreResourceModel
  fs : FS
  trace : List Effect

/-- `KeystoreResource.Create`: build the model from the plan, call
`CreateKeystoreBase64`; on error add a diagnostic and return without setting
state, otherwise set `id` to the freshly generated UUID (supplied here by the
caller as `uuid`) and `base64_text` to the returned blob, and save the data. -/
def resourceCreate (plan : KeystoreResourceModel) (uuid : String) (env : Env)
    (fs0 : FS) : ResourceOutcome :=
  let model := plan.ToKeystoreModel
  let o := model.CreateKeystoreBase64 env fs0
  match o.error with
  | some e => ⟨Except.error e, o.fs, o.trace⟩
  | none =>
      ⟨Except.ok ⟨TFString.value uuid, plan.Password, TFString.value o.value⟩,
       o.fs, o.trace⟩

/-- `KeystoreResource.Read`: read the prior state into the data model and save
that same data back into state. -/
def resourceRead (stateData : KeystoreResourceModel) : KeystoreResourceModel :=
  let data := stateData
  data

/-- `KeystoreResource.Update`: if the plan equals the prior state
(`reflect.DeepEqual`), save the plan and return; otherwise call
`UpdateKeystoreBase64` on the old model with the new password; on error add a
diagnostic and return without setting state, otherwise save the plan with
`base64_text` replaced by the returned blob. -/
def resourceUpdate (plan oldData : KeystoreResourceModel) (env : Env)
    (fs0 : FS) : ResourceOutcome :=
  if plan = oldData then ⟨Except.ok plan, fs0, []⟩
  else
    let newModel := plan.ToKeystoreModel
    let oldModel := oldData.ToKeystoreModel
    let o := oldModel.UpdateKeystoreBase64 newModel.Password env fs0
    match o.error with
    | some e => ⟨Except.error e, o.fs, o.trace⟩
    | none =>
        ⟨Except.ok ⟨plan.Id, plan.Password, TFString.value o.value⟩,
         o.fs, o.trace⟩

/-- The state stored after an Update call: the new data on success, the prior
state unchanged when the call returned a diagnostic error. -/
def resourceUpdateState (plan oldData : KeystoreResourceModel) (env : Env)
    (fs0 : FS) : KeystoreResourceModel :=
  match (resourceUpdate plan oldData env fs0).result with
  | Except.ok s => s
  | Except.error _ => oldData

/-! ### Auxiliary definitions for the statements -/

/-- Discriminator for subprocess-invocation effects. -/
def Effect.isRun : Effect → Bool
  | Effect.runCmd _ _ => true
  | _ => false

/-- Follows the spec's words, for comparison with the source: a subject name
built from the provided distinguished-name fields, with the placeholder value
"Unknown" used for fields that are absent (in the DN order CN, OU, O, L, S, C
of the tool's subject string). -/
def specDnameOfFields (cn ou org loc st country : Option String) : String :=
  "CN=" ++ cn.getD "Unknown" ++ ", OU=" ++ ou.getD "Unknown" ++
  ", O=" ++ org.getD "Unknown" ++ ", L=" ++ loc.getD "Unknown" ++
  ", S=" ++ st.getD "Unknown" ++ ", C=" ++ country.getD "Unknown"

/-- A fully successful environment: both keytool invocations succeed and no
filesystem call fails. -/
def envAllOk : Env := ⟨some [1], some [7], false, false, false, false, false⟩

/-- An environment where the importkeystore command succeeds (producing the
second temp file) but the removal of the first temp file then fails. -/
def leakEnv : Env := ⟨none, some [1], false, false, false, true, false⟩

/-! ### Helper lemmas -/

/-- The two fixed temp filenames are distinct. -/
theorem filename_ne : FILENAME ≠ FILENAME2 := by decide

/-- The two fixed temp filenames are distinct (symmetric form). -/
theorem filename2_ne : FILENAME2 ≠ FILENAME := by decide

/-- Every decode failure carries the fixed corrupt-input message. -/
theorem goBase64Decode_error_eq (s : String) (e : String)
    (h : GoBase64Decode s = Except.error e) : e = decodeErr := by
  unfold GoBase64Decode at h
  cases hd : decodeChunks (s.toList.filter (fun c => !(c == '\r') && !(c == '\n'))) with
  | none => rw [hd] at h; injection h with h; exact h.symm
  | some bs => rw [hd] at h; cases h

/-! ### The claims -/

/-- C1: for every model and every failure of a step (keytool missing or
exiting non-zero, temp-file read failure, temp-file remove failure, base64
decode failure), both CreateKeystoreBase64 and UpdateKeystoreBase64 return the
empty string together with a descriptive (non-empty, non-nil) error, never a
partially-built base64 value alongside an error. -/
theorem create_update_error_empty_value :
    (∀ (m : KeystoreModel) (env : Env) (fs0 : FS) (e : String),
      (m.CreateKeystoreBase64 env fs0).error = some e →
      (m.CreateKeystoreBase64 env fs0).value = "" ∧ e ≠ "")
    ∧ (∀ (oldModel : KeystoreModel) (newPassword : String) (env : Env)
        (fs0 : FS) (e : String),
      (oldModel.UpdateKeystoreBase64 newPassword env fs0).error = some e →
      (oldModel.UpdateKeystoreBase64 newPassword env fs0).value = "" ∧ e ≠ "") := by
  constructor
  · intro m env fs0 e
    simp only [KeystoreModel.CreateKeystoreBase64]
    repeat' split
    all_goals intro h
    all_goals try (injection h with h; subst h; refine ⟨rfl, ?_⟩; decide)
    all_goals injection h
  · intro oldModel newPassword env fs0 e
    simp only [KeystoreModel.UpdateKeystoreBase64]
    cases hd : GoBase64Decode oldModel.Base64Text with
    | error e0 =>
      intro h
      injection h with h
      subst h
      have he := goBase64Decode_error_eq _ _ hd
      subst he
      exact ⟨rfl, by decide⟩
    | ok decoded =>
      repeat' split
      all_goals intro h
      all_goals try (injection h with h; subst h; refine ⟨rfl, ?_⟩; decide)
      all_goals try (injection h)
      all_goals (exfalso; simp_all)

/-- C1 witness: a concrete failing create (keytool missing) returns the empty
value and a non-empty error. -/
theorem create_update_error_empty_value_witness :
    (KeystoreModel.CreateKeystoreBase64 ⟨"a", ""⟩ leakEnv fsEmpty).value = ""
    ∧ createCmdErr ≠ "" :=
  create_update_error_empty_value.1 ⟨"a", ""⟩ leakEnv fsEmpty createCmdErr rfl

/-- C2: for every old model and new password, on the happy path
UpdateKeystoreBase64 performs exactly: decode the blob, write the decoded
bytes to the first fixed temp filename, run keytool -importkeystore with
-srcstoretype PKCS12 and -srcstorepass the old password and -deststoretype
PKCS12 with -deststorepass and -destkeypass the new password, delete the first
temp file, read the second fixed temp filename, delete the second temp file,
and return the second file's contents base64-encoded. -/
theorem update_steps_in_order :
    ∀ (oldModel : KeystoreModel) (newPassword : String) (env : Env) (fs0 : FS)
      (decoded produced : List Nat),
      GoBase64Decode oldModel.Base64Text = Except.ok decoded →
      env.writeFail = false →
      env.keytoolImport = some produced →
      env.removeFail1 = false →
      env.readFail2 = false →
      env.removeFail2 = false →
      (oldModel.UpdateKeystoreBase64 newPassword env fs0).trace =
        [Effect.writeFile FILENAME decoded,
         Effect.runCmd "keytool"
           ["-importkeystore", "-srckeystore", FILENAME, "-srcstoretype",
            "PKCS12", "-srcstorepass", oldModel.Password, "-destkeystore",
            FILENAME2, "-deststoretype", "PKCS12", "-deststorepass",
            newPassword, "-destkeypass", newPassword],
         Effect.removeFile FILENAME,
         Effect.readFile FILENAME2,
         Effect.removeFile FILENAME2]
      ∧ (oldModel.UpdateKeystoreBase64 newPassword env fs0).value =
          GoBase64Encode produced
      ∧ (oldModel.UpdateKeystoreBase64 newPassword env fs0).error = none := by
  intro oldModel newPassword env fs0 decoded produced hdec hw hi hr1 hrd hr2
  simp [KeystoreModel.UpdateKeystoreBase64, hdec, hw, hi, hr1, hrd, hr2,
    updateArgs, fsWrite, fsRemove, filename_ne, filename2_ne]

/-- C2 witness: a concrete happy-path rotation produces the five steps and the
re-encoded blob. -/
theorem update_steps_in_order_witness :
    (KeystoreModel.UpdateKeystoreBase64 ⟨"a", ""⟩ "b" envAllOk fsEmpty).value =
      GoBase64Encode [7]
    ∧ (KeystoreModel.UpdateKeystoreBase64 ⟨"a", ""⟩ "b" envAllOk fsEmpty).error =
      none :=
  ⟨(update_steps_in_order ⟨"a", ""⟩ "b" envAllOk fsEmpty [] [7]
      rfl rfl rfl rfl rfl rfl).2.1,
   (update_steps_in_order ⟨"a", ""⟩ "b" envAllOk fsEmpty [] [7]
      rfl rfl rfl rfl rfl rfl).2.2⟩

/-- C3: for every model and environment, CreateKeystoreBase64 invokes exactly
one keytool command, a -genkeypair whose argument list has alias "keystore",
validity 10000, key algorithm RSA, key size 2048, the fixed keystore filename,
and both -keypass and -storepass equal to the model's password. -/
theorem create_single_keytool_command :
    ∀ (m : KeystoreModel) (env : Env) (fs0 : FS),
      (m.CreateKeystoreBase64 env fs0).trace.filter Effect.isRun =
        [Effect.runCmd "keytool"
          ["-v", "-genkeypair", "-alias", "keystore", "-keypass", m.Password,
           "-keystore", FILENAME, "-storepass", m.Password, "-validity",
           "10000", "-keyalg", "RSA", "-keysize", "2048", "-dname",
           createDname]] := by
  intro m env fs0
  simp only [KeystoreModel.CreateKeystoreBase64, createArgs]
  repeat' split
  all_goals simp [Effect.isRun, List.filter]

/-- C4: the -dname argument passed to keytool by CreateKeystoreBase64 is the
subject name built from the model's distinguished-name fields with the
placeholder "Unknown" for absent fields; this model variant carries no such
fields, so all six are absent and the subject is all-Unknown. -/
theorem create_dname_unknown_defaults :
    createDname = specDnameOfFields none none none none none none
    ∧ (∀ (p : String),
        createArgs p =
          ["-v", "-genkeypair", "-alias", "keystore", "-keypass", p,
           "-keystore", FILENAME, "-storepass", p, "-validity", "10000",
           "-keyalg", "RSA", "-keysize", "2048", "-dname",
           specDnameOfFields none none none none none none])
    ∧ ∀ (m : KeystoreModel) (env : Env) (fs0 : FS),
        (m.CreateKeystoreBase64 env fs0).trace.head? =
          some (Effect.runCmd "keytool" (createArgs m.Password)) := by
  refine ⟨rfl, fun p => ?_, ?_⟩
  · simp [createArgs, createDname, specDnameOfFields]
  · intro m env fs0
    simp only [KeystoreModel.CreateKeystoreBase64]
    repeat' split
    all_goals simp

/-- C5: for every old model whose Base64Text is not valid base64,
UpdateKeystoreBase64 returns the decode error with an empty value before any
file is written and before any subprocess is invoked: the trace is empty and
the filesystem is untouched. -/
theorem update_decode_fails_fast :
    ∀ (oldModel : KeystoreModel) (newPassword : String) (env : Env) (fs0 : FS)
      (e : String),
      GoBase64Decode oldModel.Base64Text = Except.error e →
      (oldModel.UpdateKeystoreBase64 newPassword env fs0).error = some e
      ∧ (oldModel.UpdateKeystoreBase64 newPassword env fs0).value = ""
      ∧ (oldModel.UpdateKeystoreBase64 newPassword env fs0).trace = []
      ∧ ∀ n, (oldModel.UpdateKeystoreBase64 newPassword env fs0).fs n = fs0 n := by
  intro oldModel newPassword env fs0 e hdec
  simp [KeystoreModel.UpdateKeystoreBase64, hdec]

/-- C5 witness: rotating a model whose blob is the corrupt string "!!!!"
fails at the decode step with no effects. -/
theorem update_decode_fails_fast_witness :
    (KeystoreModel.UpdateKeystoreBase64 ⟨"a", "!!!!"⟩ "b" envAllOk fsEmpty).trace = []
    ∧ (KeystoreModel.UpdateKeystoreBase64 ⟨"a", "!!!!"⟩ "b" envAllOk fsEmpty).value = "" :=
  ⟨(update_decode_fails_fast ⟨"a", "!!!!"⟩ "b" envAllOk fsEmpty decodeErr
      rfl).2.2.1,
   (update_decode_fails_fast ⟨"a", "!!!!"⟩ "b" envAllOk fsEmpty decodeErr
      rfl).2.1⟩

/-- C6: the resource identifier is assigned exactly once, as the freshly
generated UUID, during a successful Create; and no Update, successful or
failed, modifies the stored id (the plan carries the prior id through the
UseStateForUnknown plan modifier on the computed id attribute). -/
theorem id_assigned_once_and_stable :
    (∀ (plan : KeystoreResourceModel) (uuid : String) (env : Env) (fs0 : FS)
       (s : KeystoreResourceModel),
      (resourceCreate plan uuid env fs0).result = Except.ok s →
      s.Id = TFString.value uuid)
    ∧ ∀ (plan oldData : KeystoreResourceModel) (env : Env) (fs0 : FS),
      plan.Id = oldData.Id →
      (resourceUpdateState plan oldData env fs0).Id = oldData.Id := by
  constructor
  · intro plan uuid env fs0 s h
    simp only [resourceCreate] at h
    split at h
    · exact absurd h (by simp)
    · injection h with h
      subst h
      rfl
  · intro plan oldData env fs0 hid
    by_cases hpo : plan = oldData
    · subst hpo
      simp [resourceUpdateState, resourceUpdate]
    · simp only [resourceUpdateState, resourceUpdate, if_neg hpo]
      cases he : (oldData.ToKeystoreModel.UpdateKeystoreBase64
          plan.ToKeystoreModel.Password env fs0).error with
      | some e => simp
      | none => simpa using hid

/-- C6 witness: a concrete successful Create assigns the generated UUID, and
a concrete Update leaves the stored id unchanged. -/
theorem id_assigned_once_and_stable_witness :
    (⟨TFString.value "u", TFString.value "pw", TFString.value "AQ=="⟩ :
      KeystoreResourceModel).Id = TFString.value "u"
    ∧ (resourceUpdateState
        ⟨TFString.value "u", TFString.value "pw", TFString.value "AQ=="⟩
        ⟨TFString.value "u", TFString.value "pw", TFString.value "AQ=="⟩
        envAllOk fsEmpty).Id =
      (⟨TFString.value "u", TFString.value "pw", TFString.value "AQ=="⟩ :
        KeystoreResourceModel).Id :=
  ⟨id_assigned_once_and_stable.1
      ⟨TFString.unknown, TFString.value "pw", TFString.unknown⟩ "u" envAllOk
      fsEmpty
      ⟨TFString.value "u", TFString.value "pw", TFString.value "AQ=="⟩ rfl,
   id_assigned_once_and_stable.2
      ⟨TFString.value "u", TFString.value "pw", TFString.value "AQ=="⟩
      ⟨TFString.value "u", TFString.value "pw", TFString.value "AQ=="⟩
      envAllOk fsEmpty rfl⟩

/-- C7: Read writes back exactly the prior state: the stored base64 value,
identifier and password are unchanged, and repeated Reads are idempotent. -/
theorem read_returns_prior_state :
    ∀ (stateData : KeystoreResourceModel),
      resourceRead stateData = stateData
      ∧ (resourceRead stateData).Base64Text = stateData.Base64Text
      ∧ (resourceRead stateData).Id = stateData.Id
      ∧ (resourceRead stateData).Password = stateData.Password
      ∧ resourceRead (resourceRead stateData) = resourceRead stateData :=
  fun _ => ⟨rfl, rfl, rfl, rfl, rfl⟩

/-- C8: cleanup is not guaranteed on every error path of the rotation: in the
environment where removing the first temp file fails after the importkeystore
command has produced the second temp file, UpdateKeystoreBase64 returns an
error while the second fixed temp file is left behind on the filesystem. -/
theorem update_error_leaves_second_temp_file :
    (KeystoreModel.UpdateKeystoreBase64 ⟨"a", ""⟩ "b" leakEnv fsEmpty).error =
      some updateRemoveOldErr
    ∧ (KeystoreModel.UpdateKeystoreBase64 ⟨"a", ""⟩ "b" leakEnv fsEmpty).fs
        FILENAME2 = some [1] :=
  ⟨rfl, rfl⟩

/-- C9: if the planned data equals the prior state data, Update writes the
plan back to state and returns without calling UpdateKeystoreBase64: the trace
is empty, the filesystem is untouched, and the stored base64 value is
unchanged. -/
theorem update_noop_when_plan_equals_state :
    ∀ (plan oldData : KeystoreResourceModel) (env : Env) (fs0 : FS),
      plan = oldData →
      (resourceUpdate plan oldData env fs0).result = Except.ok plan
      ∧ (resourceUpdate plan oldData env fs0).trace = []
      ∧ (∀ n, (resourceUpdate plan oldData env fs0).fs n = fs0 n)
      ∧ (resourceUpdateState plan oldData env fs0).Base64Text =
          oldData.Base64Text := by
  intro plan oldData env fs0 h
  subst h
  simp [resourceUpdate, resourceUpdateState]

/-- C9 witness: a concrete Update whose plan equals the prior state runs no
external effect and keeps the stored blob. -/
theorem update_noop_when_plan_equals_state_witness :
    (resourceUpdate
      ⟨TFString.value "u", TFString.value "pw", TFString.value "AQ=="⟩
      ⟨TFString.value "u", TFString.value "pw", TFString.value "AQ=="⟩
      envAllOk fsEmpty).trace = [] :=
  (update_noop_when_plan_equals_state
    ⟨TFString.value "u", TFString.value "pw", TFString.value "AQ=="⟩
    ⟨TFString.value "u", TFString.value "pw", TFString.value "AQ=="⟩
    envAllOk fsEmpty rfl).2.1

/-- C10: the empty string is valid base64 and decodes to zero bytes, so
UpdateKeystoreBase64 on an old model with an empty blob does not fail at the
decode step: it writes an empty temp file and proceeds to invoke the keytool
subprocess; more generally every blob that decodes successfully reaches the
temp-file write, so the fail-fast check rejects only invalid base64. -/
theorem update_empty_blob_passes_decode :
    GoBase64Decode "" = Except.ok []
    ∧ (∀ (p newPassword : String) (env : Env) (fs0 : FS),
        env.writeFail = false →
        (KeystoreModel.UpdateKeystoreBase64 ⟨p, ""⟩ newPassword env fs0).trace.take 2 =
          [Effect.writeFile FILENAME [],
           Effect.runCmd "keytool" (updateArgs p newPassword)])
    ∧ ∀ (oldModel : KeystoreModel) (newPassword : String) (env : Env)
        (fs0 : FS) (decoded : List Nat),
        GoBase64Decode oldModel.Base64Text = Except.ok decoded →
        (oldModel.UpdateKeystoreBase64 newPassword env fs0).trace.take 1 =
          [Effect.writeFile FILENAME decoded] := by
  refine ⟨rfl, ?_, ?_⟩
  · intro p newPassword env fs0 hw
    simp only [KeystoreModel.UpdateKeystoreBase64]
    rw [show GoBase64Decode (⟨p, ""⟩ : KeystoreModel).Base64Text =
      Except.ok [] from rfl]
    simp only [hw]
    repeat' split
    all_goals simp_all
  · intro oldModel newPassword env fs0 decoded hdec
    simp only [KeystoreModel.UpdateKeystoreBase64, hdec]
    repeat' split
    all_goals simp_all

/-- C10 witness: a concrete rotation of an empty blob writes an empty temp
file and invokes keytool. -/
theorem update_empty_blob_passes_decode_witness :
    (KeystoreModel.UpdateKeystoreBase64 ⟨"a", ""⟩ "b" envAllOk fsEmpty).trace.take 2 =
      [Effect.writeFile FILENAME [],
       Effect.runCmd "keytool" (updateArgs "a" "b")] :=
  update_empty_blob_passes_decode.2.1 "a" "b" envAllOk fsEmpty rfl

end JKS
